import Mathlib

/-!
Verification of the huanlian face-tracking render pipeline.

The definitions below are a shallow embedding of the TypeScript sources:
the face-box deriver (src/utils/face.ts, function computeFaceBox), the pose
snapshot builder and render-loop hold policy (src/components/CameraProcessor.tsx),
and the avatar overlay per-frame smoothing (src/components/AvatarOverlay.tsx).
JavaScript numbers are modelled as rationals; where non-finiteness matters
(the facial transformation matrix) a scalar type with explicit NaN and
infinity tags is used. External three.js numeric kernels (Math.exp,
quaternion extraction and slerp) are parameters of the frame step, since the
repository only invokes them.
-/

/-- A face landmark as stored in a pose snapshot (src/types/face.ts):
normalized x, y and an optional depth. -/
structure Landmark where
  x : ℚ
  y : ℚ
  z : Option ℚ
deriving DecidableEq, Repr

/-- Axis-aligned face box in pixel coordinates (src/types/face.ts). -/
structure FaceBox where
  x : ℚ
  y : ℚ
  width : ℚ
  height : ℚ
deriving DecidableEq, Repr

/-- Frame size in pixels (src/types/face.ts). -/
structure FrameSize where
  width : ℚ
  height : ℚ
deriving DecidableEq, Repr

/-- One step of the min/max scan of computeFaceBox (src/utils/face.ts,
the for-loop body): the accumulator is (minX, minY, maxX, maxY). -/
def extentStep (acc : ℚ × ℚ × ℚ × ℚ) (pt : Landmark) : ℚ × ℚ × ℚ × ℚ :=
  (if pt.x < acc.1 then pt.x else acc.1,
   if pt.y < acc.2.1 then pt.y else acc.2.1,
   if pt.x > acc.2.2.1 then pt.x else acc.2.2.1,
   if pt.y > acc.2.2.2 then pt.y else acc.2.2.2)

/-- The landmark extent scan of computeFaceBox, started from
minX = minY = 1 and maxX = maxY = 0 exactly as in the source. -/
def scanExtents (landmarks : List Landmark) : ℚ × ℚ × ℚ × ℚ :=
  landmarks.foldl extentStep (1, 1, 0, 0)

/-- computeFaceBox (src/utils/face.ts lines 131-167), translated clause by
clause; 0.5 is written 1/2. -/
def computeFaceBox (landmarks : List Landmark) (frameWidth frameHeight : ℚ)
    (padX padY yShift : ℚ) (mirrorX : Bool) : FaceBox :=
  let e := scanExtents landmarks
  let minX := e.1
  let minY := e.2.1
  let maxX := e.2.2.1
  let maxY := e.2.2.2
  let boxMinX := if mirrorX then 1 - maxX else minX
  let boxMaxX := if mirrorX then 1 - minX else maxX
  let baseX := boxMinX * frameWidth
  let baseY := minY * frameHeight
  let width := (boxMaxX - boxMinX) * frameWidth
  let height := (maxY - minY) * frameHeight
  let padXSize := width * padX
  let padYSize := height * padY
  { x := baseX - padXSize * (1/2)
    y := baseY - padYSize * yShift
    width := width + padXSize
    height := height + padYSize }

/-- Horizontal mirroring of a landmark list: every x becomes 1 - x. -/
def mirrorLandmarks (landmarks : List Landmark) : List Landmark :=
  landmarks.map (fun p => { p with x := 1 - p.x })

/-- Running minimum of a list of rationals from a start value, as the scan
loop computes it. -/
def foldMin (init : ℚ) (l : List ℚ) : ℚ :=
  l.foldl min init

/-- Running maximum of a list of rationals from a start value. -/
def foldMax (init : ℚ) (l : List ℚ) : ℚ :=
  l.foldl max init

/-- A JavaScript number as far as Number.isFinite can tell: a finite
rational or one of the non-finite values. Used for the entries of the
facial transformation matrix, whose finiteness the avatar overlay checks. -/
inductive JsNum where
  | finite (val : ℚ)
  | nan
  | posInf
  | negInf
deriving DecidableEq, Repr

/-- Number.isFinite on the modelled scalar. -/
def JsNum.isFinite : JsNum → Bool
  | .finite _ => true
  | _ => false

/-- A named blendshape weight of a snapshot (src/types/face.ts). -/
structure Blendshape where
  name : String
  score : ℚ
deriving DecidableEq, Repr

/-- A pose snapshot (src/types/face.ts FaceSnapshot): landmarks, optional
16-entry transformation matrix, optional blendshape weights, timestamp. -/
structure FaceSnapshot where
  landmarks : List Landmark
  matrix : Option (List JsNum)
  blendshapes : Option (List Blendshape)
  timestamp : ℚ
deriving DecidableEq, Repr

/-- A raw landmark from the detector. -/
structure RawLandmark where
  x : ℚ
  y : ℚ
  z : ℚ
deriving DecidableEq, Repr

/-- A raw blendshape category from the detector. -/
structure RawCategory where
  categoryName : String
  score : ℚ
deriving DecidableEq, Repr

/-- The raw facial transformation matrix representation consumed by
buildFaceSnapshot: a flat array, a wrapper object exposing a numeric
data buffer, or some other object without a data buffer. -/
inductive RawMatrixRep where
  | flatArray (elems : List JsNum)
  | wrapped (data : List JsNum)
  | otherObject
deriving DecidableEq, Repr

/-- The raw detection result consumed by buildFaceSnapshot
(the FaceLandmarkerResult fields the builder reads). -/
structure RawResult where
  faceLandmarks : List (List RawLandmark)
  facialTransformationMatrixes : List RawMatrixRep
  faceBlendshapes : List (List RawCategory)
deriving DecidableEq, Repr

/-- The numeric buffer the builder reads from the raw matrix representation
(CameraProcessor.tsx lines 310-314): the array itself when the
representation is a flat array, its data buffer when it is a wrapper
object exposing one, nothing otherwise. -/
def rawMatrixBuffer : Option RawMatrixRep → Option (List JsNum)
  | some (.flatArray elems) => some elems
  | some (.wrapped data) => some data
  | some .otherObject => none
  | none => none

/-- buildFaceSnapshot (CameraProcessor.tsx lines 298-330): no face
landmarks means no snapshot; the matrix is taken only when the raw buffer
has at least 16 entries, as the first 16; blendshape categories are copied
through unchanged. -/
def buildFaceSnapshot (result : RawResult) (timestamp : ℚ) : Option FaceSnapshot :=
  match result.faceLandmarks.head? with
  | none => none
  | some firstFace =>
    let landmarks := firstFace.map (fun l => { x := l.x, y := l.y, z := some l.z : Landmark })
    let rawData := rawMatrixBuffer result.facialTransformationMatrixes.head?
    let matrix : Option (List JsNum) :=
      match rawData with
      | some d => if 16 ≤ d.length then some (d.take 16) else none
      | none => none
    let blendshapes :=
      result.faceBlendshapes.head?.map
        (fun cats => cats.map (fun c => { name := c.categoryName, score := c.score : Blendshape }))
    some { landmarks := landmarks, matrix := matrix, blendshapes := blendshapes,
           timestamp := timestamp }

/-- The 2D-path hold window in milliseconds (CameraProcessor.tsx faceHoldMs). -/
def faceHoldMs : ℚ := 600

/-- The mutable hold state of the render loop: the effective snapshot slot
and the arrival time of the last successful detection. -/
structure HoldState where
  snap : Option FaceSnapshot
  lastTime : ℚ
deriving DecidableEq, Repr

/-- One detection-handling step of renderLoop (CameraProcessor.tsx lines
359-369): a fresh snapshot immediately becomes effective and its arrival
time is recorded; otherwise the slot is cleared only when it is occupied,
the 3D avatar is off, and the gap strictly exceeds the hold window. -/
def holdStep (enable3DAvatar : Bool) (s : HoldState) (startTimeMs : ℚ)
    (detected : Option FaceSnapshot) : HoldState :=
  match detected with
  | some snapshot => { snap := some snapshot, lastTime := startTimeMs }
  | none =>
      if s.snap.isSome ∧ enable3DAvatar = false ∧ faceHoldMs < startTimeMs - s.lastTime then
        { s with snap := none }
      else s

/-- Iterated renderLoop steps over frames that yield no detection. -/
def runAbsent (enable3DAvatar : Bool) (s : HoldState) (times : List ℚ) : HoldState :=
  times.foldl (fun st t => holdStep enable3DAvatar st t none) s

/-- Iterated renderLoop steps over arbitrary frames (time, detection). -/
def runFrames (enable3DAvatar : Bool) (s : HoldState)
    (frames : List (ℚ × Option FaceSnapshot)) : HoldState :=
  frames.foldl (fun st f => holdStep enable3DAvatar st f.1 f.2) s

/-- The face-layer box decision of drawComposition (CameraProcessor.tsx
lines 264-278): computeFaceBox with the tight 2D profile, only when the
snapshot exists and has at least one landmark. -/
def faceLayerBox (snapshot : Option FaceSnapshot) (canvasWidth canvasHeight : ℚ)
    (mirrorCamera : Bool) : Option FaceBox :=
  match snapshot with
  | some s =>
      if 0 < s.landmarks.length then
        some (computeFaceBox s.landmarks canvasWidth canvasHeight
          (1/5) (2/5) (3/10) mirrorCamera)
      else none
  | none => none

/-- The avatar-path hold window in milliseconds (AvatarOverlay.tsx
faceBoxHoldMs). -/
def faceBoxHoldMs : ℚ := 1500

/-- The latest face box the avatar frame derives (AvatarOverlay.tsx lines
148-158): computeFaceBox with the avatar padding profile, only when the
snapshot has landmarks and the frame size is known (nonzero). -/
def avatarLatestFaceBox (snapshot : Option FaceSnapshot) (frame : FrameSize)
    (mirror : Bool) : Option FaceBox :=
  match snapshot with
  | some s =>
      if 0 < s.landmarks.length ∧ frame.width ≠ 0 ∧ frame.height ≠ 0 then
        some (computeFaceBox s.landmarks frame.width frame.height
          (7/25) (11/20) (9/20) mirror)
      else none
  | none => none

/-- The face box actually used by the avatar frame (AvatarOverlay.tsx lines
163-167): the latest box, or the last known box while the 1500 ms hold has
not expired, otherwise nothing. -/
def selectFaceBox (latestFaceBox lastFaceBox : Option FaceBox)
    (lastFaceBoxTime now : ℚ) : Option FaceBox :=
  match latestFaceBox with
  | some b => some b
  | none =>
      if lastFaceBox.isSome ∧ now - lastFaceBoxTime < faceBoxHoldMs then
        lastFaceBox
      else none

/-- Smoothing and layout constants of AvatarOverlay.tsx lines 85-95,
as exact rationals. -/
def rotationSmoothing : ℚ := 12

def positionSmoothing : ℚ := 12

def scaleSmoothing : ℚ := 10

def blendshapeSmoothing : ℚ := 1/4

def eyeLookSmoothing : ℚ := 3/20

def eyeLookScale : ℚ := 2/5

def avatarOffsetY : ℚ := 2/25

/-- The prefix that marks a gaze/eye-direction blendshape name. -/
def eyeLookNameStart : String := "eyeLook"

/-- A three.js vector, components as rationals. -/
structure Vec3 where
  x : ℚ
  y : ℚ
  z : ℚ
deriving DecidableEq, Repr

/-- A three.js quaternion, components as rationals (the claims proved here
never compute with the components, only track which frames update them). -/
structure Quat where
  x : ℚ
  y : ℚ
  z : ℚ
  w : ℚ
deriving DecidableEq, Repr

/-- three.js MathUtils.lerp. -/
def mathLerp (x y t : ℚ) : ℚ :=
  (1 - t) * x + t * y

/-- three.js Vector3.lerp: componentwise move toward the target by alpha. -/
def vec3Lerp (v target : Vec3) (alpha : ℚ) : Vec3 :=
  { x := v.x + (target.x - v.x) * alpha
    y := v.y + (target.y - v.y) * alpha
    z := v.z + (target.z - v.z) * alpha }

/-- The external three.js numeric kernels the avatar frame invokes.
expFn stands for Math.exp; quatFromMatrixData for the composite of
Matrix4.fromArray, extractRotation, the optional mirror conjugation and
Quaternion.setFromRotationMatrix; slerpFn for Quaternion.slerp.
The claims proved about the frame step hold for every choice of these. -/
structure ThreeMath where
  expFn : ℚ → ℚ
  quatFromMatrixData : List JsNum → Bool → Quat
  slerpFn : Quat → Quat → ℚ → Quat

/-- three.js MathUtils.damp: lerp with factor 1 - exp(-lambda*dt). -/
def dampFn (tm : ThreeMath) (x y lambda dt : ℚ) : ℚ :=
  mathLerp x y (1 - tm.expFn (-(lambda * dt)))

/-- The per-instance mutable state of AvatarModel (AvatarOverlay.tsx refs)
together with the group transform it writes each frame. -/
structure AvatarState where
  smoothQuat : Quat
  hasRotation : Bool
  smoothPosition : Vec3
  smoothScale : ℚ
  hasPosition : Bool
  lastFaceBox : Option FaceBox
  lastFaceBoxTime : ℚ
  blendshapeState : List (String × ℚ)
  morphInfluences : List (String × ℚ)
  groupVisible : Bool
  groupPosition : Vec3
  groupScale : ℚ
  groupQuat : Quat
deriving DecidableEq, Repr

/-- The matrix validity check of AvatarOverlay.tsx lines 195-206: a matrix
is used only when it has at least 16 entries and the first 16 are finite. -/
def hasValidMatrixData : Option (List JsNum) → Bool
  | some d => decide (16 ≤ d.length) && (d.take 16).all JsNum.isFinite
  | none => false

/-- Position and scale smoothing (AvatarOverlay.tsx lines 182-193): the
first frame snaps, later frames lerp with factor 1 - exp(-12*delta) and
damp with rate 10. -/
def avatarPositionStage (tm : ThreeMath) (delta : ℚ) (targetPos : Vec3)
    (boxScale : ℚ) (st : AvatarState) : AvatarState :=
  if st.hasPosition = false then
    { st with smoothPosition := targetPos, smoothScale := boxScale, hasPosition := true }
  else
    let alpha := 1 - tm.expFn (-(positionSmoothing * delta))
    { st with smoothPosition := vec3Lerp st.smoothPosition targetPos alpha
              smoothScale := dampFn tm st.smoothScale boxScale scaleSmoothing delta }

/-- Rotation smoothing (AvatarOverlay.tsx lines 195-228): skipped entirely
unless the matrix is present with 16 finite leading entries; the first
valid frame snaps, later frames slerp with factor 1 - exp(-12*delta). -/
def avatarRotationStage (tm : ThreeMath) (mirror : Bool) (delta : ℚ)
    (matrixData : Option (List JsNum)) (st : AvatarState) : AvatarState :=
  match matrixData with
  | some d =>
      if hasValidMatrixData (some d) then
        let targetQuat := tm.quatFromMatrixData d mirror
        if st.hasRotation = false then
          { st with smoothQuat := targetQuat, hasRotation := true, groupQuat := targetQuat }
        else
          let alpha := 1 - tm.expFn (-(rotationSmoothing * delta))
          let sq := tm.slerpFn st.smoothQuat targetQuat alpha
          { st with smoothQuat := sq, groupQuat := sq }
      else st
  | none => st

/-- The target score of one blendshape (AvatarOverlay.tsx line 243): gaze
weights are scaled down by eyeLookScale first. -/
def blendshapeTarget (shape : Blendshape) : ℚ :=
  if shape.name.startsWith eyeLookNameStart then shape.score * eyeLookScale else shape.score

/-- The interpolation factor of one blendshape (AvatarOverlay.tsx line 242). -/
def blendshapeFactor (shape : Blendshape) : ℚ :=
  if shape.name.startsWith eyeLookNameStart then eyeLookSmoothing else blendshapeSmoothing

/-- Keyed write into an association list, newest entry first (models the
JavaScript record/array writes of the blendshape stage). -/
def setKey (l : List (String × ℚ)) (k : String) (v : ℚ) : List (String × ℚ) :=
  (k, v) :: l.eraseP (fun p => p.1 == k)

/-- Processing of one blendshape entry (AvatarOverlay.tsx lines 235-249):
for names the morph dictionary knows, lerp the stored state toward the
target and apply the clamped value to the mesh influence. -/
def applyOneShape (morphDict : String → Bool)
    (acc : List (String × ℚ) × List (String × ℚ)) (shape : Blendshape) :
    List (String × ℚ) × List (String × ℚ) :=
  if morphDict shape.name then
    let prev := (acc.1.lookup shape.name).getD 0
    let next := mathLerp prev (blendshapeTarget shape) (blendshapeFactor shape)
    (setKey acc.1 shape.name next, setKey acc.2 shape.name (min 1 (max 0 next)))
  else acc

/-- The blendshape loop over one frame. -/
def applyShapes (morphDict : String → Bool) (shapes : List Blendshape)
    (state influences : List (String × ℚ)) :
    List (String × ℚ) × List (String × ℚ) :=
  shapes.foldl (applyOneShape morphDict) (state, influences)

/-- The blendshape stage of the avatar frame (AvatarOverlay.tsx lines
230-250): runs only when the snapshot carries a nonempty blendshape list
and the mesh with morph targets was found. -/
def avatarBlendStage (morphMeshPresent : Bool) (morphDict : String → Bool)
    (blendshapes : Option (List Blendshape)) (st : AvatarState) : AvatarState :=
  match blendshapes with
  | some shapes =>
      if 0 < shapes.length ∧ morphMeshPresent = true then
        let r := applyShapes morphDict shapes st.blendshapeState st.morphInfluences
        { st with blendshapeState := r.1, morphInfluences := r.2 }
      else st
  | none => st

/-- The body of one useFrame tick of AvatarModel, with the three values it
reads from the shared snapshot (the freshly derived face box, the matrix
buffer, the blendshape list) passed explicitly. -/
def avatarFrameWith (tm : ThreeMath) (enabled mirror morphMeshPresent : Bool)
    (headScale : ℚ) (morphDict : String → Bool) (latestFaceBox : Option FaceBox)
    (matrixData : Option (List JsNum)) (blendshapes : Option (List Blendshape))
    (frame canvasSize : FrameSize) (now delta : ℚ) (st : AvatarState) : AvatarState :=
  if enabled = false then { st with groupVisible := false } else
  let st1 :=
    match latestFaceBox with
    | some b => { st with lastFaceBox := some b, lastFaceBoxTime := now }
    | none => st
  match selectFaceBox latestFaceBox st1.lastFaceBox st1.lastFaceBoxTime now with
  | none => { st1 with groupVisible := false }
  | some faceBox =>
      if frame.width = 0 ∨ frame.height = 0 then { st1 with groupVisible := false } else
      let scaleX := canvasSize.width / frame.width
      let scaleY := canvasSize.height / frame.height
      let boxCenterX := (faceBox.x + faceBox.width * (1/2)) * scaleX
      let boxCenterY := (faceBox.y + faceBox.height * (1/2)) * scaleY
      let posX := boxCenterX - canvasSize.width * (1/2)
      let posY := canvasSize.height * (1/2) - boxCenterY
        + faceBox.height * scaleY * avatarOffsetY
      let boxScale := max (faceBox.width * scaleX) (faceBox.height * scaleY) * headScale
      let targetPos : Vec3 := { x := posX, y := posY, z := 0 }
      let st2 := avatarPositionStage tm delta targetPos boxScale
        { st1 with groupVisible := true }
      let st3 := { st2 with groupPosition := st2.smoothPosition, groupScale := st2.smoothScale }
      let st4 := avatarRotationStage tm mirror delta matrixData st3
      avatarBlendStage morphMeshPresent morphDict blendshapes st4

/-- One useFrame tick of AvatarModel (AvatarOverlay.tsx lines 137-251):
disabled frames hide the group; otherwise the latest face box is derived and
held for up to 1500 ms, position/scale/rotation are smoothed, and
blendshapes are applied. -/
def avatarFrame (tm : ThreeMath) (enabled mirror morphMeshPresent : Bool)
    (headScale : ℚ) (morphDict : String → Bool) (snapshot : Option FaceSnapshot)
    (frame canvasSize : FrameSize) (now delta : ℚ) (st : AvatarState) : AvatarState :=
  avatarFrameWith tm enabled mirror morphMeshPresent headScale morphDict
    (avatarLatestFaceBox snapshot frame mirror)
    (snapshot.bind FaceSnapshot.matrix)
    (snapshot.bind FaceSnapshot.blendshapes)
    frame canvasSize now delta st

/-- A segmentation mask at detector-native resolution, with the numeric
buffer the compositor reads from it. -/
structure MPMask where
  width : ℕ
  height : ℕ
  data : List ℚ
deriving DecidableEq, Repr

/-- A segmentation result (the ImageSegmenterResult fields drawComposition
reads): zero or more confidence masks and an optional category mask. -/
structure SegmentationResult where
  confidenceMasks : List MPMask
  categoryMask : Option MPMask
deriving DecidableEq, Repr

/-- The truthiness test of CameraProcessor.tsx line 215: background
replacement runs only when a confidence or category mask is available. -/
def segMaskAvailable : Option SegmentationResult → Bool
  | some seg => decide (seg.confidenceMasks.length ≠ 0) || seg.categoryMask.isSome
  | none => false

/-- The alpha channel the mask loop writes (CameraProcessor.tsx lines
229-237): confidence values clamp to [0,1] and scale to 0..255, category
values map nonzero to 255. -/
def maskAlphas (isConfidenceMask : Bool) (data : List ℚ) : List ℤ :=
  data.map (fun v =>
    if isConfidenceMask then round (min 1 (max 0 v) * 255)
    else if 0 < v then 255 else 0)

/-- One abstract drawing operation of drawComposition. Operations on the
offscreen mask and person canvases are distinguished from draws on the
output canvas. -/
inductive DrawOp where
  | save
  | clearRect
  | mirrorTransform
  | maskPut (alphas : List ℤ)
  | drawBackgroundImage
  | drawBlurredVideo
  | personClear
  | personDrawVideo
  | personApplyMask
  | drawPersonToMain
  | drawVideo
  | closeSegmentation
  | drawFaceOverlay (box : FaceBox)
  | drawLandmarkDots
  | restore
deriving DecidableEq, Repr

/-- Whether an operation touches the offscreen mask or person-cutout
buffers. -/
def touchesOffscreen : DrawOp → Bool
  | .maskPut _ => true
  | .personClear => true
  | .personDrawVideo => true
  | .personApplyMask => true
  | .drawPersonToMain => true
  | _ => false

/-- The background layer of drawComposition (CameraProcessor.tsx lines
214-261): with replacement enabled and a mask available, build the alpha
mask, draw the background (uploaded image or blurred frame), cut out the
person and composite it, then release the segmentation; in every other
case draw the live frame directly. ctxOk models successful 2d-context
acquisition for the two offscreen canvases; the inner none case is
unreachable under the availability guard. -/
def backgroundOps (enableBackgroundReplace backgroundImage ctxOk : Bool)
    (segmentation : Option SegmentationResult) : List DrawOp :=
  match segmentation with
  | some seg =>
      if enableBackgroundReplace
          && (decide (seg.confidenceMasks.length ≠ 0) || seg.categoryMask.isSome) then
        match seg.confidenceMasks.head?.or seg.categoryMask with
        | some mask =>
            let isConfidenceMask := decide (seg.confidenceMasks.length ≠ 0)
            (if ctxOk then
              [DrawOp.maskPut (maskAlphas isConfidenceMask mask.data)]
              ++ (if backgroundImage then [DrawOp.drawBackgroundImage]
                  else [DrawOp.drawBlurredVideo])
              ++ [DrawOp.personClear, DrawOp.personDrawVideo,
                  DrawOp.personApplyMask, DrawOp.drawPersonToMain]
            else [DrawOp.drawVideo]) ++ [DrawOp.closeSegmentation]
        | none => [DrawOp.drawVideo]
      else [DrawOp.drawVideo]
  | none => [DrawOp.drawVideo]

/-- The face layer of drawComposition (CameraProcessor.tsx lines 280-293):
with 2D face overlay enabled and a box derived, draw the uploaded image
stretched to the box, or debug landmark dots when no image was uploaded. -/
def faceLayerOps (enableFaceSwap faceOverlayImage : Bool)
    (snapshot : Option FaceSnapshot) (faceBox : Option FaceBox) : List DrawOp :=
  match faceBox with
  | some box =>
      if enableFaceSwap then
        if faceOverlayImage then [DrawOp.drawFaceOverlay box]
        else
          match snapshot with
          | some _ => [DrawOp.drawLandmarkDots]
          | none => []
      else []
  | none => []

/-- The full drawing trace of one drawComposition call (CameraProcessor.tsx
lines 187-296): save, clear, optional mirror transform, background layer,
face layer, restore. -/
def drawCompositionOps (mirrorCamera enableBackgroundReplace backgroundImage
    enableFaceSwap faceOverlayImage ctxOk : Bool)
    (segmentation : Option SegmentationResult) (snapshot : Option FaceSnapshot)
    (canvasWidth canvasHeight : ℚ) : List DrawOp :=
  [DrawOp.save, DrawOp.clearRect]
  ++ (if mirrorCamera then [DrawOp.mirrorTransform] else [])
  ++ backgroundOps enableBackgroundReplace backgroundImage ctxOk segmentation
  ++ faceLayerOps enableFaceSwap faceOverlayImage snapshot
       (faceLayerBox snapshot canvasWidth canvasHeight mirrorCamera)
  ++ [DrawOp.restore]

/-- Scalar iteration of the position lerp with a fixed target: n frames of
Vector3.lerp toward the same component value with the same factor. -/
def iterLerp (target alpha : ℚ) : ℕ → ℚ → ℚ
  | 0, v => v
  | n + 1, v => iterLerp target alpha n (v + (target - v) * alpha)

/-- Componentwise iteration of Vector3.lerp toward a fixed target. -/
def iterVec3Lerp (target : Vec3) (alpha : ℚ) : ℕ → Vec3 → Vec3
  | 0, v => v
  | n + 1, v => iterVec3Lerp target alpha n (vec3Lerp v target alpha)

/-- Modelled from the spec: the three.js Quaternion.slerp kernel is an
external collaborator (AvatarOverlay.tsx line 225 only invokes it); per the
smoothing policy of the spec, slerp by factor alpha moves the orientation a
fraction alpha of the remaining geodesic angle toward the target, so with a
fixed target the angle left after one frame is (1 - alpha) times the
previous angle. This iterates that angle recurrence for n frames. -/
def iterSlerpAngle (alpha : ℚ) : ℕ → ℚ → ℚ
  | 0, theta => theta
  | n + 1, theta => iterSlerpAngle alpha n ((1 - alpha) * theta)

/-- A one-landmark snapshot used by concrete witness instances. -/
def sampleSnapshot : FaceSnapshot :=
  { landmarks := [{ x := 1/2, y := 1/2, z := none }], matrix := none,
    blendshapes := none, timestamp := 0 }

/-- A concrete face box used by witness instances. -/
def sampleBox : FaceBox :=
  { x := 0, y := 0, width := 10, height := 10 }

/-- A concrete choice of the external three.js kernels used by witness
instances (the claims hold for every choice). -/
def sampleThreeMath : ThreeMath :=
  { expFn := fun q => 1 - q
    quatFromMatrixData := fun _ _ => { x := 0, y := 0, z := 0, w := 1 }
    slerpFn := fun a _ _ => a }

/-- A concrete initial avatar state used by witness instances. -/
def sampleAvatarState : AvatarState :=
  { smoothQuat := { x := 0, y := 0, z := 0, w := 1 }
    hasRotation := false
    smoothPosition := { x := 0, y := 0, z := 0 }
    smoothScale := 1
    hasPosition := false
    lastFaceBox := none
    lastFaceBoxTime := 0
    blendshapeState := []
    morphInfluences := []
    groupVisible := false
    groupPosition := { x := 0, y := 0, z := 0 }
    groupScale := 1
    groupQuat := { x := 0, y := 0, z := 0, w := 1 } }

/-- A 16-entry matrix buffer whose last entry is NaN. -/
def badMatrixData : List JsNum :=
  List.replicate 15 (JsNum.finite 0) ++ [JsNum.nan]

/-- A snapshot whose matrix has 16 entries of which one is NaN. -/
def badMatrixSnapshot : FaceSnapshot :=
  { landmarks := [{ x := 1/2, y := 1/2, z := none }]
    matrix := some badMatrixData
    blendshapes := none
    timestamp := 0 }

/-- Blendshape names used by witness instances. -/
def jawOpenName : String := "jawOpen"

def eyeLookUpName : String := "eyeLookUpLeft"

theorem ite_lt_eq_min (a b : ℚ) : (if b < a then b else a) = min a b := by
  rcases le_or_lt a b with h | h
  · rw [if_neg (not_lt.mpr h), min_eq_left h]
  · rw [if_pos h, min_eq_right h.le]

theorem ite_gt_eq_max (a b : ℚ) : (if b > a then b else a) = max a b := by
  rcases le_or_lt b a with h | h
  · rw [if_neg (not_lt.mpr h), max_eq_left h]
  · rw [if_pos h, max_eq_right h.le]

theorem scanExtents_eq_folds (landmarks : List Landmark) (a b c d : ℚ) :
    landmarks.foldl extentStep (a, b, c, d) =
      (foldMin a (landmarks.map Landmark.x), foldMin b (landmarks.map Landmark.y),
       foldMax c (landmarks.map Landmark.x), foldMax d (landmarks.map Landmark.y)) := by
  induction landmarks generalizing a b c d with
  | nil => simp [foldMin, foldMax]
  | cons p rest ih =>
      simp only [List.foldl_cons, List.map_cons, extentStep, foldMin, foldMax]
      rw [show (if p.x < a then p.x else a) = min a p.x from ite_lt_eq_min a p.x,
        show (if p.y < b then p.y else b) = min b p.y from ite_lt_eq_min b p.y,
        show (if p.x > c then p.x else c) = max c p.x from ite_gt_eq_max c p.x,
        show (if p.y > d then p.y else d) = max d p.y from ite_gt_eq_max d p.y]
      exact ih (min a p.x) (min b p.y) (max c p.x) (max d p.y)

theorem foldMin_le_init (init : ℚ) (l : List ℚ) : foldMin init l ≤ init := by
  induction l generalizing init with
  | nil => simp [foldMin]
  | cons x rest ih =>
      calc foldMin init (x :: rest) = foldMin (min init x) rest := rfl
        _ ≤ min init x := ih (min init x)
        _ ≤ init := min_le_left _ _

theorem foldMin_le_mem (init : ℚ) (l : List ℚ) : ∀ x ∈ l, foldMin init l ≤ x := by
  induction l generalizing init with
  | nil => intro x hx; cases hx
  | cons y rest ih =>
      intro x hx
      rcases List.mem_cons.mp hx with h | h
      · subst h
        calc foldMin init (x :: rest) = foldMin (min init x) rest := rfl
          _ ≤ min init x := foldMin_le_init _ _
          _ ≤ x := min_le_right _ _
      · exact ih (min init y) x h

theorem foldMin_eq_init_or_mem (init : ℚ) (l : List ℚ) :
    foldMin init l = init ∨ foldMin init l ∈ l := by
  induction l generalizing init with
  | nil => left; rfl
  | cons y rest ih =>
      rcases ih (min init y) with h | h
      · rcases le_or_lt init y with hle | hlt
        · left
          show foldMin (min init y) rest = init
          rw [h, min_eq_left hle]
        · right
          apply List.mem_cons.mpr
          left
          show foldMin (min init y) rest = y
          rw [h, min_eq_right hlt.le]
      · right
        exact List.mem_cons.mpr (Or.inr h)

theorem foldMax_init_le (init : ℚ) (l : List ℚ) : init ≤ foldMax init l := by
  induction l generalizing init with
  | nil => simp [foldMax]
  | cons x rest ih =>
      calc init ≤ max init x := le_max_left _ _
        _ ≤ foldMax (max init x) rest := ih (max init x)

theorem foldMax_le_mem (init : ℚ) (l : List ℚ) : ∀ x ∈ l, x ≤ foldMax init l := by
  induction l generalizing init with
  | nil => intro x hx; cases hx
  | cons y rest ih =>
      intro x hx
      rcases List.mem_cons.mp hx with h | h
      · subst h
        calc x ≤ max init x := le_max_right _ _
          _ ≤ foldMax (max init x) rest := foldMax_init_le _ _
      · exact ih (max init y) x h

theorem foldMax_eq_init_or_mem (init : ℚ) (l : List ℚ) :
    foldMax init l = init ∨ foldMax init l ∈ l := by
  induction l generalizing init with
  | nil => left; rfl
  | cons y rest ih =>
      rcases ih (max init y) with h | h
      · rcases le_or_lt y init with hle | hlt
        · left
          show foldMax (max init y) rest = init
          rw [h, max_eq_left hle]
        · right
          apply List.mem_cons.mpr
          left
          show foldMax (max init y) rest = y
          rw [h, max_eq_right hlt.le]
      · right
        exact List.mem_cons.mpr (Or.inr h)

/-- If some element of the list is at most the start value, the running
minimum is attained by an element of the list. -/
theorem foldMin_attained (init : ℚ) (l : List ℚ) (w : ℚ) (hw : w ∈ l)
    (hle : w ≤ init) : ∃ x ∈ l, foldMin init l = x := by
  rcases foldMin_eq_init_or_mem init l with h | h
  · refine ⟨w, hw, ?_⟩
    have h1 : foldMin init l ≤ w := foldMin_le_mem init l w hw
    have h2 : w ≤ foldMin init l := by rw [h]; exact hle
    exact le_antisymm h1 h2
  · exact ⟨foldMin init l, h, rfl⟩

/-- If some element of the list is at least the start value, the running
maximum is attained by an element of the list. -/
theorem foldMax_attained (init : ℚ) (l : List ℚ) (w : ℚ) (hw : w ∈ l)
    (hle : init ≤ w) : ∃ x ∈ l, foldMax init l = x := by
  rcases foldMax_eq_init_or_mem init l with h | h
  · refine ⟨w, hw, ?_⟩
    have h1 : w ≤ foldMax init l := foldMax_le_mem init l w hw
    have h2 : foldMax init l ≤ w := by rw [h]; exact hle
    exact le_antisymm h2 h1
  · exact ⟨foldMax init l, h, rfl⟩

theorem scanExtents_def (landmarks : List Landmark) :
    scanExtents landmarks =
      (foldMin 1 (landmarks.map Landmark.x), foldMin 1 (landmarks.map Landmark.y),
       foldMax 0 (landmarks.map Landmark.x), foldMax 0 (landmarks.map Landmark.y)) :=
  scanExtents_eq_folds landmarks 1 1 0 0

theorem foldMin_one_sub (a : ℚ) (xs : List ℚ) :
    foldMin (1 - a) (xs.map (fun x => 1 - x)) = 1 - foldMax a xs := by
  induction xs generalizing a with
  | nil => simp [foldMin, foldMax]
  | cons x rest ih =>
      have hmin : min (1 - a) (1 - x) = 1 - max a x := by
        rcases le_total a x with h | h
        · rw [max_eq_right h, min_eq_right (by linarith)]
        · rw [max_eq_left h, min_eq_left (by linarith)]
      show foldMin (min (1 - a) (1 - x)) (rest.map fun x => 1 - x)
        = 1 - foldMax (max a x) rest
      rw [hmin]
      exact ih (max a x)

theorem foldMax_one_sub (a : ℚ) (xs : List ℚ) :
    foldMax (1 - a) (xs.map (fun x => 1 - x)) = 1 - foldMin a xs := by
  induction xs generalizing a with
  | nil => simp [foldMin, foldMax]
  | cons x rest ih =>
      have hmax : max (1 - a) (1 - x) = 1 - min a x := by
        rcases le_total a x with h | h
        · rw [min_eq_left h, max_eq_left (by linarith)]
        · rw [min_eq_right h, max_eq_right (by linarith)]
      show foldMax (max (1 - a) (1 - x)) (rest.map fun x => 1 - x)
        = 1 - foldMin (min a x) rest
      rw [hmax]
      exact ih (min a x)

theorem foldMin_mirror (xs : List ℚ) :
    foldMin 1 (xs.map (fun x => 1 - x)) = 1 - foldMax 0 xs := by
  have h := foldMin_one_sub 0 xs
  simpa using h

theorem foldMax_mirror (xs : List ℚ) :
    foldMax 0 (xs.map (fun x => 1 - x)) = 1 - foldMin 1 xs := by
  have h := foldMax_one_sub 1 xs
  simpa using h

theorem mirror_map_x (landmarks : List Landmark) :
    (mirrorLandmarks landmarks).map Landmark.x = landmarks.map (fun p => 1 - p.x) := by
  rw [mirrorLandmarks, List.map_map]
  rfl

theorem mirror_map_y (landmarks : List Landmark) :
    (mirrorLandmarks landmarks).map Landmark.y = landmarks.map Landmark.y := by
  rw [mirrorLandmarks, List.map_map]
  rfl

/-- Claim C2: for every landmark sequence containing at least one point with
normalized coordinates in [0,1] and all paddings at least 0, computeFaceBox
with mirror off computes base extents that are the exact minimum and maximum
of the landmark coordinates scaled to pixel space, with the padding applied
on top of exactly those base extents. -/
theorem claim2_faceBox_tight_extents (landmarks : List Landmark)
    (frameWidth frameHeight padX padY yShift : ℚ)
    (hpt : ∃ p ∈ landmarks, 0 ≤ p.x ∧ p.x ≤ 1 ∧ 0 ≤ p.y ∧ p.y ≤ 1)
    (hpadX : 0 ≤ padX) (hpadY : 0 ≤ padY) :
    ∃ mnX mnY mxX mxY : ℚ,
      (∀ p ∈ landmarks, mnX ≤ p.x ∧ p.x ≤ mxX ∧ mnY ≤ p.y ∧ p.y ≤ mxY)
      ∧ (∃ p ∈ landmarks, p.x = mnX) ∧ (∃ p ∈ landmarks, p.x = mxX)
      ∧ (∃ p ∈ landmarks, p.y = mnY) ∧ (∃ p ∈ landmarks, p.y = mxY)
      ∧ computeFaceBox landmarks frameWidth frameHeight padX padY yShift false =
          { x := mnX * frameWidth - (mxX - mnX) * frameWidth * padX * (1/2)
            y := mnY * frameHeight - (mxY - mnY) * frameHeight * padY * yShift
            width := (mxX - mnX) * frameWidth + (mxX - mnX) * frameWidth * padX
            height := (mxY - mnY) * frameHeight + (mxY - mnY) * frameHeight * padY } := by
  obtain ⟨p, hp, hx0, hx1, hy0, hy1⟩ := hpt
  refine ⟨foldMin 1 (landmarks.map Landmark.x), foldMin 1 (landmarks.map Landmark.y),
    foldMax 0 (landmarks.map Landmark.x), foldMax 0 (landmarks.map Landmark.y),
    ?_, ?_, ?_, ?_, ?_, ?_⟩
  · intro q hq
    refine ⟨foldMin_le_mem _ _ q.x (List.mem_map_of_mem _ hq),
      foldMax_le_mem _ _ q.x (List.mem_map_of_mem _ hq),
      foldMin_le_mem _ _ q.y (List.mem_map_of_mem _ hq),
      foldMax_le_mem _ _ q.y (List.mem_map_of_mem _ hq)⟩
  · obtain ⟨v, hv, hveq⟩ :=
      foldMin_attained 1 (landmarks.map Landmark.x) p.x (List.mem_map_of_mem _ hp) hx1
    obtain ⟨q, hq, hqx⟩ := List.mem_map.mp hv
    exact ⟨q, hq, by rw [hqx, hveq]⟩
  · obtain ⟨v, hv, hveq⟩ :=
      foldMax_attained 0 (landmarks.map Landmark.x) p.x (List.mem_map_of_mem _ hp) hx0
    obtain ⟨q, hq, hqx⟩ := List.mem_map.mp hv
    exact ⟨q, hq, by rw [hqx, hveq]⟩
  · obtain ⟨v, hv, hveq⟩ :=
      foldMin_attained 1 (landmarks.map Landmark.y) p.y (List.mem_map_of_mem _ hp) hy1
    obtain ⟨q, hq, hqy⟩ := List.mem_map.mp hv
    exact ⟨q, hq, by rw [hqy, hveq]⟩
  · obtain ⟨v, hv, hveq⟩ :=
      foldMax_attained 0 (landmarks.map Landmark.y) p.y (List.mem_map_of_mem _ hp) hy0
    obtain ⟨q, hq, hqy⟩ := List.mem_map.mp hv
    exact ⟨q, hq, by rw [hqy, hveq]⟩
  · simp only [computeFaceBox, scanExtents_def, Bool.false_eq_true, if_false]

/-- Concrete instance of claim C2 at a two-landmark list. -/
theorem claim2_witness :
    ∃ mnX mnY mxX mxY : ℚ,
      (∀ p ∈ [({ x := 1/4, y := 1/2, z := none } : Landmark),
              { x := 3/4, y := 1/5, z := none }],
          mnX ≤ p.x ∧ p.x ≤ mxX ∧ mnY ≤ p.y ∧ p.y ≤ mxY)
      ∧ (∃ p ∈ [({ x := 1/4, y := 1/2, z := none } : Landmark),
              { x := 3/4, y := 1/5, z := none }], p.x = mnX)
      ∧ (∃ p ∈ [({ x := 1/4, y := 1/2, z := none } : Landmark),
              { x := 3/4, y := 1/5, z := none }], p.x = mxX)
      ∧ (∃ p ∈ [({ x := 1/4, y := 1/2, z := none } : Landmark),
              { x := 3/4, y := 1/5, z := none }], p.y = mnY)
      ∧ (∃ p ∈ [({ x := 1/4, y := 1/2, z := none } : Landmark),
              { x := 3/4, y := 1/5, z := none }], p.y = mxY)
      ∧ computeFaceBox [({ x := 1/4, y := 1/2, z := none } : Landmark),
              { x := 3/4, y := 1/5, z := none }] 640 480 (1/5) (2/5) (3/10) false =
          { x := mnX * 640 - (mxX - mnX) * 640 * (1/5) * (1/2)
            y := mnY * 480 - (mxY - mnY) * 480 * (2/5) * (3/10)
            width := (mxX - mnX) * 640 + (mxX - mnX) * 640 * (1/5)
            height := (mxY - mnY) * 480 + (mxY - mnY) * 480 * (2/5) } :=
  claim2_faceBox_tight_extents _ 640 480 (1/5) (2/5) (3/10)
    ⟨{ x := 1/4, y := 1/2, z := none }, by simp, by norm_num⟩
    (by norm_num) (by norm_num)

theorem foldMin_mirror_landmarks (landmarks : List Landmark) :
    foldMin 1 ((mirrorLandmarks landmarks).map Landmark.x)
      = 1 - foldMax 0 (landmarks.map Landmark.x) := by
  rw [mirror_map_x,
    show landmarks.map (fun p => 1 - p.x)
        = (landmarks.map Landmark.x).map (fun x => 1 - x) from by
      rw [List.map_map]
      rfl,
    foldMin_mirror]

theorem foldMax_mirror_landmarks (landmarks : List Landmark) :
    foldMax 0 ((mirrorLandmarks landmarks).map Landmark.x)
      = 1 - foldMin 1 (landmarks.map Landmark.x) := by
  rw [mirror_map_x,
    show landmarks.map (fun p => 1 - p.x)
        = (landmarks.map Landmark.x).map (fun x => 1 - x) from by
      rw [List.map_map]
      rfl,
    foldMax_mirror]

/-- Claim C3: deriving a box from horizontally mirrored landmarks with the
mirror flag off gives exactly the box derived from the original landmarks
with the mirror flag on. -/
theorem claim3_mirror_equivalence (landmarks : List Landmark)
    (frameWidth frameHeight padX padY yShift : ℚ) (h : landmarks ≠ []) :
    computeFaceBox (mirrorLandmarks landmarks) frameWidth frameHeight padX padY yShift false
      = computeFaceBox landmarks frameWidth frameHeight padX padY yShift true := by
  simp only [computeFaceBox, scanExtents_def, foldMin_mirror_landmarks,
    foldMax_mirror_landmarks, mirror_map_y, Bool.false_eq_true, if_false, if_true]

/-- Concrete instance of claim C3 at a two-landmark list. -/
theorem claim3_witness :
    computeFaceBox (mirrorLandmarks [({ x := 1/4, y := 1/2, z := none } : Landmark),
        { x := 3/4, y := 1/5, z := none }]) 640 480 (1/5) (2/5) (3/10) false
      = computeFaceBox [({ x := 1/4, y := 1/2, z := none } : Landmark),
        { x := 3/4, y := 1/5, z := none }] 640 480 (1/5) (2/5) (3/10) true :=
  claim3_mirror_equivalence _ 640 480 (1/5) (2/5) (3/10) (by simp)

/-- Claim C10: on the empty landmark list computeFaceBox returns a
degenerate box with width equal to minus frameWidth times (1 + padX) and
height equal to minus frameHeight times (1 + padY), for either mirror flag;
and both call sites (the compositor face layer and the avatar face-box
derivation) produce a box only from a snapshot with at least one landmark,
so the degenerate box never reaches them. -/
theorem claim10_empty_landmarks_degenerate (frameWidth frameHeight padX padY yShift : ℚ)
    (mirrorX : Bool) (snapshot : Option FaceSnapshot) (canvasWidth canvasHeight : ℚ)
    (mirrorCamera mirror3D : Bool) (frame : FrameSize) (box : FaceBox) :
    ((computeFaceBox [] frameWidth frameHeight padX padY yShift mirrorX).width
        = -(frameWidth * (1 + padX))
      ∧ (computeFaceBox [] frameWidth frameHeight padX padY yShift mirrorX).height
        = -(frameHeight * (1 + padY)))
    ∧ (faceLayerBox snapshot canvasWidth canvasHeight mirrorCamera = some box →
        ∃ s, snapshot = some s ∧ 0 < s.landmarks.length)
    ∧ (avatarLatestFaceBox snapshot frame mirror3D = some box →
        ∃ s, snapshot = some s ∧ 0 < s.landmarks.length) := by
  refine ⟨?_, ?_, ?_⟩
  · cases mirrorX <;>
      · constructor <;>
          · simp [computeFaceBox, scanExtents]
            ring
  · intro hbx
    match snapshot with
    | none => simp [faceLayerBox] at hbx
    | some s =>
        refine ⟨s, rfl, ?_⟩
        by_contra hlen
        simp [faceLayerBox, hlen] at hbx
  · intro hbx
    match snapshot with
    | none => simp [avatarLatestFaceBox] at hbx
    | some s =>
        refine ⟨s, rfl, ?_⟩
        by_contra hlen
        simp [avatarLatestFaceBox, hlen] at hbx

theorem holdStep_none_state (enable3DAvatar : Bool) (t u : ℚ) :
    holdStep enable3DAvatar { snap := none, lastTime := t } u none
      = { snap := none, lastTime := t } := by
  simp [holdStep]

theorem runAbsent_none_state (enable3DAvatar : Bool) (t : ℚ) (times : List ℚ) :
    runAbsent enable3DAvatar { snap := none, lastTime := t } times
      = { snap := none, lastTime := t } := by
  induction times with
  | nil => rfl
  | cons u rest ih =>
      show runAbsent enable3DAvatar
        (holdStep enable3DAvatar { snap := none, lastTime := t } u none) rest = _
      rw [holdStep_none_state]
      exact ih

theorem runAbsent_closed (c : FaceSnapshot) (t0 : ℚ) (times : List ℚ) :
    runAbsent false { snap := some c, lastTime := t0 } times =
      if ∀ t ∈ times, t - t0 ≤ faceHoldMs then { snap := some c, lastTime := t0 }
      else { snap := none, lastTime := t0 } := by
  induction times with
  | nil => simp [runAbsent]
  | cons u rest ih =>
      show runAbsent false
        (holdStep false { snap := some c, lastTime := t0 } u none) rest = _
      by_cases hu : faceHoldMs < u - t0
      · have hstep : holdStep false { snap := some c, lastTime := t0 } u none
            = { snap := none, lastTime := t0 } := by
          simp [holdStep, hu]
        rw [hstep, runAbsent_none_state,
          if_neg (fun hall => absurd (hall u (List.mem_cons_self u rest)) (not_le.mpr hu))]
      · have hstep : holdStep false { snap := some c, lastTime := t0 } u none
            = { snap := some c, lastTime := t0 } := by
          simp [holdStep, hu]
        rw [hstep, ih]
        have hiff : (∀ t ∈ u :: rest, t - t0 ≤ faceHoldMs)
            ↔ (∀ t ∈ rest, t - t0 ≤ faceHoldMs) := by
          rw [List.forall_mem_cons]
          exact ⟨fun hh => hh.2, fun hh => ⟨not_lt.mp hu, hh⟩⟩
        by_cases hrest : ∀ t ∈ rest, t - t0 ≤ faceHoldMs
        · rw [if_pos hrest, if_pos (hiff.mpr hrest)]
        · rw [if_neg hrest, if_neg (fun hh => hrest (hiff.mp hh))]

/-- Claim C1: with the 3D avatar disabled, a frame that yields a snapshot
immediately installs it with its arrival time; across any sequence of
later frames yielding no snapshot the effective snapshot stays non-null
exactly while every elapsed gap is at most the 600 ms hold window, and is
null exactly when some gap strictly exceeds it (so it is retained at a gap
of exactly 600 ms and cleared as soon as the gap passes 600 ms). -/
theorem claim1_hold_window_2d (c : FaceSnapshot) (t0 : ℚ) (s : HoldState)
    (times : List ℚ) :
    holdStep false s t0 (some c) = { snap := some c, lastTime := t0 }
    ∧ ((runAbsent false { snap := some c, lastTime := t0 } times).snap = some c
        ↔ ∀ t ∈ times, t - t0 ≤ faceHoldMs)
    ∧ ((runAbsent false { snap := some c, lastTime := t0 } times).snap = none
        ↔ ∃ t ∈ times, faceHoldMs < t - t0) := by
  refine ⟨rfl, ?_, ?_⟩
  · rw [runAbsent_closed]
    by_cases hall : ∀ t ∈ times, t - t0 ≤ faceHoldMs
    · rw [if_pos hall]
      exact iff_of_true rfl hall
    · rw [if_neg hall]
      exact iff_of_false (by simp) hall
  · rw [runAbsent_closed]
    by_cases hall : ∀ t ∈ times, t - t0 ≤ faceHoldMs
    · rw [if_pos hall]
      refine iff_of_false (by simp) ?_
      rintro ⟨t, ht, hgt⟩
      exact absurd (hall t ht) (not_le.mpr hgt)
    · rw [if_neg hall]
      push_neg at hall
      exact iff_of_true rfl hall

theorem holdStep_3d_absent (st : HoldState) (u : ℚ) :
    holdStep true st u none = st := by
  simp [holdStep]

theorem holdStep_3d_keeps_some (st : HoldState) (u : ℚ) (det : Option FaceSnapshot)
    (h : st.snap.isSome = true) : (holdStep true st u det).snap.isSome = true := by
  cases det with
  | some c => rfl
  | none =>
      rw [holdStep_3d_absent]
      exact h

theorem runFrames_3d_keeps_some (s : HoldState) (frames : List (ℚ × Option FaceSnapshot))
    (h : s.snap.isSome = true) : (runFrames true s frames).snap.isSome = true := by
  induction frames generalizing s with
  | nil => exact h
  | cons f rest ih =>
      show (runFrames true (holdStep true s f.1 f.2) rest).snap.isSome = true
      exact ih _ (holdStep_3d_keeps_some s f.1 f.2 h)

/-- Claim C4: with the 3D avatar enabled, the render loop hold-expiry step
never fires, so an effective snapshot once set is never cleared no matter
how many detection-free frames pass or how large the gap grows; in that
mode only the avatar face-box layer hold expires, holding a last known box
exactly while the elapsed time is strictly below 1500 ms. -/
theorem claim4_hold_clear_suppressed (s : HoldState)
    (frames : List (ℚ × Option FaceSnapshot)) (lastBox : FaceBox) (tBox now : ℚ)
    (hs : s.snap.isSome = true) :
    (∀ (st : HoldState) (u : ℚ), holdStep true st u none = st)
    ∧ (runFrames true s frames).snap.isSome = true
    ∧ (selectFaceBox none (some lastBox) tBox now = some lastBox
        ↔ now - tBox < faceBoxHoldMs)
    ∧ (faceBoxHoldMs ≤ now - tBox → selectFaceBox none (some lastBox) tBox now = none) := by
  refine ⟨holdStep_3d_absent, runFrames_3d_keeps_some s frames hs, ?_, ?_⟩
  · by_cases h : now - tBox < faceBoxHoldMs
    · refine iff_of_true ?_ h
      simp [selectFaceBox, h]
    · refine iff_of_false ?_ h
      simp [selectFaceBox, h]
  · intro hge
    simp [selectFaceBox, not_lt.mpr hge]

/-- Concrete instance of claim C4: a held snapshot survives detection-free
frames far past every hold window, and the face-box hold is expired at
exactly 1500 ms. -/
theorem claim4_witness :
    (∀ (st : HoldState) (u : ℚ), holdStep true st u none = st)
    ∧ (runFrames true { snap := some sampleSnapshot, lastTime := 0 }
        [(700, none), (3000, none)]).snap.isSome = true
    ∧ (selectFaceBox none (some sampleBox) 0 1500 = some sampleBox
        ↔ (1500 : ℚ) - 0 < faceBoxHoldMs)
    ∧ (faceBoxHoldMs ≤ (1500 : ℚ) - 0 →
        selectFaceBox none (some sampleBox) 0 1500 = none) :=
  claim4_hold_clear_suppressed _ [(700, none), (3000, none)] sampleBox 0 1500 rfl

/-- Claim C6: buildFaceSnapshot returns no snapshot exactly when the raw
result has no face landmarks; a returned snapshot has a matrix exactly when
the raw matrix buffer (flat array or the data buffer of a wrapper object)
has at least 16 entries, in which case the matrix is exactly its first 16
entries; blendshape scores are copied through unchanged and the timestamp
is the given one. -/
theorem claim6_snapshot_builder_contract (result : RawResult) (timestamp : ℚ) :
    (buildFaceSnapshot result timestamp = none ↔ result.faceLandmarks = [])
    ∧ (∀ s, buildFaceSnapshot result timestamp = some s →
        ((s.matrix.isSome = true ↔
            ∃ d, rawMatrixBuffer result.facialTransformationMatrixes.head? = some d
              ∧ 16 ≤ d.length)
         ∧ (∀ d, rawMatrixBuffer result.facialTransformationMatrixes.head? = some d →
              16 ≤ d.length → s.matrix = some (d.take 16))
         ∧ s.blendshapes = result.faceBlendshapes.head?.map
             (fun cats => cats.map (fun c => { name := c.categoryName, score := c.score }))
         ∧ s.timestamp = timestamp)) := by
  constructor
  · cases hfl : result.faceLandmarks with
    | nil => simp [buildFaceSnapshot, hfl]
    | cons f rest => simp [buildFaceSnapshot, hfl]
  · intro s hs
    cases hfl : result.faceLandmarks with
    | nil =>
        rw [buildFaceSnapshot, hfl] at hs
        cases hs
    | cons f rest =>
        simp only [buildFaceSnapshot, hfl, List.head?_cons, Option.some.injEq] at hs
        subst hs
        refine ⟨?_, ?_, rfl, rfl⟩
        · cases hbuf : rawMatrixBuffer result.facialTransformationMatrixes.head? with
          | none => simp [hbuf]
          | some d =>
              by_cases hlen : 16 ≤ d.length
              · simp [hbuf, hlen]
              · simp [hbuf, hlen]
        · intro d hd hlen
          simp [hd, hlen]


theorem avatarPositionStage_smoothQuat (tm : ThreeMath) (delta : ℚ) (targetPos : Vec3)
    (boxScale : ℚ) (st : AvatarState) :
    (avatarPositionStage tm delta targetPos boxScale st).smoothQuat = st.smoothQuat := by
  unfold avatarPositionStage
  split <;> simp

theorem avatarPositionStage_groupQuat (tm : ThreeMath) (delta : ℚ) (targetPos : Vec3)
    (boxScale : ℚ) (st : AvatarState) :
    (avatarPositionStage tm delta targetPos boxScale st).groupQuat = st.groupQuat := by
  unfold avatarPositionStage
  split <;> simp

theorem avatarPositionStage_hasRotation (tm : ThreeMath) (delta : ℚ) (targetPos : Vec3)
    (boxScale : ℚ) (st : AvatarState) :
    (avatarPositionStage tm delta targetPos boxScale st).hasRotation = st.hasRotation := by
  unfold avatarPositionStage
  split <;> simp

theorem avatarBlendStage_smoothQuat (morphMeshPresent : Bool) (morphDict : String → Bool)
    (blendshapes : Option (List Blendshape)) (st : AvatarState) :
    (avatarBlendStage morphMeshPresent morphDict blendshapes st).smoothQuat
      = st.smoothQuat := by
  unfold avatarBlendStage
  split
  all_goals first
    | rfl
    | (split <;> simp)

theorem avatarBlendStage_groupQuat (morphMeshPresent : Bool) (morphDict : String → Bool)
    (blendshapes : Option (List Blendshape)) (st : AvatarState) :
    (avatarBlendStage morphMeshPresent morphDict blendshapes st).groupQuat
      = st.groupQuat := by
  unfold avatarBlendStage
  split
  all_goals first
    | rfl
    | (split <;> simp)

theorem avatarBlendStage_hasRotation (morphMeshPresent : Bool) (morphDict : String → Bool)
    (blendshapes : Option (List Blendshape)) (st : AvatarState) :
    (avatarBlendStage morphMeshPresent morphDict blendshapes st).hasRotation
      = st.hasRotation := by
  unfold avatarBlendStage
  split
  all_goals first
    | rfl
    | (split <;> simp)

theorem hasValidMatrixData_of_bad_entry (d : List JsNum)
    (hbad : ∃ e ∈ d.take 16, e.isFinite = false) :
    hasValidMatrixData (some d) = false := by
  obtain ⟨e, he, hef⟩ := hbad
  have hall : ¬ ((d.take 16).all JsNum.isFinite = true) := by
    rw [List.all_eq_true]
    intro h
    have hc := h e he
    rw [hef] at hc
    exact absurd hc (by simp)
  have hfalse : (d.take 16).all JsNum.isFinite = false := Bool.eq_false_iff.mpr hall
  show (decide (16 ≤ d.length) && (d.take 16).all JsNum.isFinite) = false
  rw [hfalse, Bool.and_false]

theorem avatarRotationStage_invalid (tm : ThreeMath) (mirror : Bool) (delta : ℚ)
    (matrixData : Option (List JsNum)) (st : AvatarState)
    (h : hasValidMatrixData matrixData = false) :
    avatarRotationStage tm mirror delta matrixData st = st := by
  unfold avatarRotationStage
  cases matrixData with
  | none => rfl
  | some d => simp [h]

theorem avatarFrameWith_matrix_skip (tm : ThreeMath)
    (enabled mirror morphMeshPresent : Bool) (headScale : ℚ)
    (morphDict : String → Bool) (latestFaceBox : Option FaceBox)
    (matrixData : Option (List JsNum)) (blendshapes : Option (List Blendshape))
    (frame canvasSize : FrameSize) (now delta : ℚ) (st : AvatarState)
    (h : hasValidMatrixData matrixData = false) :
    avatarFrameWith tm enabled mirror morphMeshPresent headScale morphDict
        latestFaceBox matrixData blendshapes frame canvasSize now delta st
      = avatarFrameWith tm enabled mirror morphMeshPresent headScale morphDict
        latestFaceBox none blendshapes frame canvasSize now delta st := by
  unfold avatarFrameWith
  simp only [show ∀ s', avatarRotationStage tm mirror delta matrixData s' = s' from
      fun s' => avatarRotationStage_invalid tm mirror delta matrixData s' h,
    show ∀ s', avatarRotationStage tm mirror delta none s' = s' from fun _ => rfl]

theorem avatarFrameWith_rotation_frozen (tm : ThreeMath)
    (enabled mirror morphMeshPresent : Bool) (headScale : ℚ)
    (morphDict : String → Bool) (latestFaceBox : Option FaceBox)
    (blendshapes : Option (List Blendshape))
    (frame canvasSize : FrameSize) (now delta : ℚ) (st : AvatarState) :
    (avatarFrameWith tm enabled mirror morphMeshPresent headScale morphDict
        latestFaceBox none blendshapes frame canvasSize now delta st).smoothQuat
      = st.smoothQuat
    ∧ (avatarFrameWith tm enabled mirror morphMeshPresent headScale morphDict
        latestFaceBox none blendshapes frame canvasSize now delta st).groupQuat
      = st.groupQuat
    ∧ (avatarFrameWith tm enabled mirror morphMeshPresent headScale morphDict
        latestFaceBox none blendshapes frame canvasSize now delta st).hasRotation
      = st.hasRotation := by
  unfold avatarFrameWith
  by_cases he : enabled = false
  · simp [he]
  · simp only [if_neg he]
    rcases latestFaceBox with _ | b <;>
      · split
        · simp
        · split
          · simp
          · refine ⟨?_, ?_, ?_⟩ <;>
              simp [avatarRotationStage, avatarBlendStage_smoothQuat,
                avatarBlendStage_groupQuat, avatarBlendStage_hasRotation,
                avatarPositionStage_smoothQuat, avatarPositionStage_groupQuat,
                avatarPositionStage_hasRotation]

/-- Claim C5: a frame whose snapshot carries a matrix with a non-finite
entry among the first 16 skips the rotation update, leaving the smoothed
orientation quaternion, the applied group quaternion and the rotation flag
exactly as before the frame, and the whole frame behaves exactly as if the
snapshot carried no matrix, so position and scale smoothing are unaffected
by the skip. -/
theorem claim5_nonfinite_matrix_frame_effect (tm : ThreeMath)
    (enabled mirror morphMeshPresent : Bool) (headScale : ℚ)
    (morphDict : String → Bool) (snap : FaceSnapshot) (d : List JsNum)
    (frame canvasSize : FrameSize) (now delta : ℚ) (st : AvatarState)
    (hmat : snap.matrix = some d)
    (hbad : ∃ e ∈ d.take 16, e.isFinite = false) :
    (avatarFrame tm enabled mirror morphMeshPresent headScale morphDict (some snap)
        frame canvasSize now delta st).smoothQuat = st.smoothQuat
    ∧ (avatarFrame tm enabled mirror morphMeshPresent headScale morphDict (some snap)
        frame canvasSize now delta st).groupQuat = st.groupQuat
    ∧ (avatarFrame tm enabled mirror morphMeshPresent headScale morphDict (some snap)
        frame canvasSize now delta st).hasRotation = st.hasRotation
    ∧ avatarFrame tm enabled mirror morphMeshPresent headScale morphDict (some snap)
        frame canvasSize now delta st
      = avatarFrame tm enabled mirror morphMeshPresent headScale morphDict
        (some { snap with matrix := none }) frame canvasSize now delta st := by
  have hval : hasValidMatrixData ((some snap).bind FaceSnapshot.matrix) = false := by
    rw [Option.some_bind, hmat]
    exact hasValidMatrixData_of_bad_entry d hbad
  have hfr : avatarFrame tm enabled mirror morphMeshPresent headScale morphDict
      (some snap) frame canvasSize now delta st
      = avatarFrameWith tm enabled mirror morphMeshPresent headScale morphDict
        (avatarLatestFaceBox (some snap) frame mirror) none
        ((some snap).bind FaceSnapshot.blendshapes) frame canvasSize now delta st :=
    avatarFrameWith_matrix_skip tm enabled mirror morphMeshPresent headScale morphDict
      (avatarLatestFaceBox (some snap) frame mirror)
      ((some snap).bind FaceSnapshot.matrix)
      ((some snap).bind FaceSnapshot.blendshapes) frame canvasSize now delta st hval
  have hfrozen := avatarFrameWith_rotation_frozen tm enabled mirror morphMeshPresent
    headScale morphDict (avatarLatestFaceBox (some snap) frame mirror)
    ((some snap).bind FaceSnapshot.blendshapes) frame canvasSize now delta st
  refine ⟨?_, ?_, ?_, ?_⟩
  · rw [hfr]
    exact hfrozen.1
  · rw [hfr]
    exact hfrozen.2.1
  · rw [hfr]
    exact hfrozen.2.2
  · rw [hfr]
    rfl

/-- Concrete instance of claim C5 at a snapshot whose 16-entry matrix ends
in NaN. -/
theorem claim5_witness :
    (avatarFrame sampleThreeMath true false false 1 (fun _ => false)
        (some badMatrixSnapshot) { width := 640, height := 480 }
        { width := 640, height := 480 } 0 (1/60) sampleAvatarState).smoothQuat
      = sampleAvatarState.smoothQuat
    ∧ (avatarFrame sampleThreeMath true false false 1 (fun _ => false)
        (some badMatrixSnapshot) { width := 640, height := 480 }
        { width := 640, height := 480 } 0 (1/60) sampleAvatarState).groupQuat
      = sampleAvatarState.groupQuat
    ∧ (avatarFrame sampleThreeMath true false false 1 (fun _ => false)
        (some badMatrixSnapshot) { width := 640, height := 480 }
        { width := 640, height := 480 } 0 (1/60) sampleAvatarState).hasRotation
      = sampleAvatarState.hasRotation
    ∧ avatarFrame sampleThreeMath true false false 1 (fun _ => false)
        (some badMatrixSnapshot) { width := 640, height := 480 }
        { width := 640, height := 480 } 0 (1/60) sampleAvatarState
      = avatarFrame sampleThreeMath true false false 1 (fun _ => false)
        (some { badMatrixSnapshot with matrix := none }) { width := 640, height := 480 }
        { width := 640, height := 480 } 0 (1/60) sampleAvatarState :=
  claim5_nonfinite_matrix_frame_effect sampleThreeMath true false false 1 (fun _ => false)
    badMatrixSnapshot badMatrixData { width := 640, height := 480 }
    { width := 640, height := 480 } 0 (1/60) sampleAvatarState rfl (by decide)

theorem iterLerp_closed (target alpha x0 : ℚ) (n : ℕ) :
    target - iterLerp target alpha n x0 = (target - x0) * (1 - alpha) ^ n := by
  induction n generalizing x0 with
  | zero => simp [iterLerp]
  | succ k ih =>
      show target - iterLerp target alpha k (x0 + (target - x0) * alpha)
        = (target - x0) * (1 - alpha) ^ (k + 1)
      rw [ih (x0 + (target - x0) * alpha)]
      ring

theorem iterLerp_abs (target alpha x0 : ℚ) (n : ℕ) (h1 : alpha ≤ 1) :
    |target - iterLerp target alpha n x0| = |target - x0| * (1 - alpha) ^ n := by
  rw [iterLerp_closed, abs_mul, abs_pow,
    abs_of_nonneg (by linarith : (0 : ℚ) ≤ 1 - alpha)]

theorem iterVec3Lerp_x (tv : Vec3) (alpha : ℚ) (n : ℕ) (v0 : Vec3) :
    (iterVec3Lerp tv alpha n v0).x = iterLerp tv.x alpha n v0.x := by
  induction n generalizing v0 with
  | zero => rfl
  | succ k ih =>
      show (iterVec3Lerp tv alpha k (vec3Lerp v0 tv alpha)).x
        = iterLerp tv.x alpha k (v0.x + (tv.x - v0.x) * alpha)
      exact ih (vec3Lerp v0 tv alpha)

theorem iterSlerpAngle_closed (alpha theta0 : ℚ) (n : ℕ) :
    iterSlerpAngle alpha n theta0 = theta0 * (1 - alpha) ^ n := by
  induction n generalizing theta0 with
  | zero => simp [iterSlerpAngle]
  | succ k ih =>
      show iterSlerpAngle alpha k ((1 - alpha) * theta0) = theta0 * (1 - alpha) ^ (k + 1)
      rw [ih ((1 - alpha) * theta0)]
      ring

/-- Claim C7: iterating the position lerp of the avatar frame with a fixed
target and a fixed factor alpha in [0, 1] (the value of 1 - exp(-12*delta)
for a positive delta) moves monotonically toward the target and never
overshoots it; the remaining distance after n frames equals the initial
distance times (1 - alpha)^n, that is, times exp(-12*delta*n), hence falls
below any positive epsilon within a bounded frame count once alpha is
positive. The Vector3 lerp acts componentwise as this scalar lerp, and the
slerped rotation angle obeys the same contraction. -/
theorem claim7_smoothing_convergence (target alpha x0 theta0 : ℚ) (v0 tv : Vec3)
    (n : ℕ) (h0 : 0 ≤ alpha) (h1 : alpha ≤ 1) (hth : 0 ≤ theta0) :
    (target - iterLerp target alpha n x0 = (target - x0) * (1 - alpha) ^ n)
    ∧ (|target - iterLerp target alpha n x0| = |target - x0| * (1 - alpha) ^ n)
    ∧ (|target - iterLerp target alpha (n + 1) x0| ≤ |target - iterLerp target alpha n x0|)
    ∧ (x0 ≤ target → iterLerp target alpha n x0 ≤ iterLerp target alpha (n + 1) x0
        ∧ iterLerp target alpha n x0 ≤ target)
    ∧ (target ≤ x0 → iterLerp target alpha (n + 1) x0 ≤ iterLerp target alpha n x0
        ∧ target ≤ iterLerp target alpha n x0)
    ∧ ((iterVec3Lerp tv alpha n v0).x = iterLerp tv.x alpha n v0.x)
    ∧ (iterSlerpAngle alpha n theta0 = theta0 * (1 - alpha) ^ n)
    ∧ (iterSlerpAngle alpha (n + 1) theta0 ≤ iterSlerpAngle alpha n theta0)
    ∧ (0 < alpha → ∀ eps : ℚ, 0 < eps → ∃ N : ℕ, ∀ m : ℕ, N ≤ m →
        |target - iterLerp target alpha m x0| < eps) := by
  have hbeta0 : (0 : ℚ) ≤ 1 - alpha := by linarith
  have hbeta1 : 1 - alpha ≤ 1 := by linarith
  have hpow : ∀ m : ℕ, (0 : ℚ) ≤ (1 - alpha) ^ m := fun m => pow_nonneg hbeta0 m
  have hstep : ∀ m : ℕ, (1 - alpha) ^ (m + 1) ≤ (1 - alpha) ^ m := fun m =>
    pow_le_pow_of_le_one hbeta0 hbeta1 (Nat.le_succ m)
  refine ⟨iterLerp_closed target alpha x0 n, iterLerp_abs target alpha x0 n h1,
    ?_, ?_, ?_, iterVec3Lerp_x tv alpha n v0, iterSlerpAngle_closed alpha theta0 n,
    ?_, ?_⟩
  · rw [iterLerp_abs target alpha x0 (n + 1) h1, iterLerp_abs target alpha x0 n h1]
    exact mul_le_mul_of_nonneg_left (hstep n) (abs_nonneg _)
  · intro hx
    have hd0 : 0 ≤ target - x0 := by linarith
    have hn := iterLerp_closed target alpha x0 n
    have hn1 := iterLerp_closed target alpha x0 (n + 1)
    have hkey := mul_le_mul_of_nonneg_left (hstep n) hd0
    constructor
    · linarith
    · have := mul_nonneg hd0 (hpow n)
      linarith
  · intro hx
    have hd0 : target - x0 ≤ 0 := by linarith
    have hn := iterLerp_closed target alpha x0 n
    have hn1 := iterLerp_closed target alpha x0 (n + 1)
    have hkey := mul_le_mul_of_nonpos_left (hstep n) hd0
    constructor
    · linarith
    · have := mul_nonpos_of_nonpos_of_nonneg hd0 (hpow n)
      linarith
  · rw [iterSlerpAngle_closed alpha theta0 (n + 1), iterSlerpAngle_closed alpha theta0 n]
    exact mul_le_mul_of_nonneg_left (hstep n) hth
  · intro hpos eps heps
    by_cases hzero : target - x0 = 0
    · refine ⟨0, fun m _ => ?_⟩
      rw [iterLerp_abs target alpha x0 m h1, hzero, abs_zero, zero_mul]
      exact heps
    · have habs : 0 < |target - x0| := abs_pos.mpr hzero
      have hb1 : 1 - alpha < 1 := by linarith
      obtain ⟨N, hN⟩ := exists_pow_lt_of_lt_one (div_pos heps habs) hb1
      refine ⟨N, fun m hm => ?_⟩
      rw [iterLerp_abs target alpha x0 m h1]
      calc |target - x0| * (1 - alpha) ^ m
          ≤ |target - x0| * (1 - alpha) ^ N :=
            mul_le_mul_of_nonneg_left (pow_le_pow_of_le_one hbeta0 hbeta1 hm) (abs_nonneg _)
        _ < |target - x0| * (eps / |target - x0|) := mul_lt_mul_of_pos_left hN habs
        _ = eps := by field_simp

/-- Concrete instance of claim C7 with factor one half after two frames. -/
theorem claim7_witness :
    ((1 : ℚ) - iterLerp 1 (1/2) 2 0 = (1 - 0) * (1 - 1/2) ^ 2)
    ∧ (|(1 : ℚ) - iterLerp 1 (1/2) 2 0| = |(1 : ℚ) - 0| * (1 - 1/2) ^ 2)
    ∧ (|(1 : ℚ) - iterLerp 1 (1/2) (2 + 1) 0| ≤ |(1 : ℚ) - iterLerp 1 (1/2) 2 0|)
    ∧ ((0 : ℚ) ≤ 1 → iterLerp 1 (1/2) 2 0 ≤ iterLerp 1 (1/2) (2 + 1) 0
        ∧ iterLerp 1 (1/2) 2 0 ≤ 1)
    ∧ ((1 : ℚ) ≤ 0 → iterLerp 1 (1/2) (2 + 1) 0 ≤ iterLerp 1 (1/2) 2 0
        ∧ (1 : ℚ) ≤ iterLerp 1 (1/2) 2 0)
    ∧ ((iterVec3Lerp { x := 1, y := 2, z := 3 } (1/2) 2 { x := 0, y := 0, z := 0 }).x
        = iterLerp ({ x := 1, y := 2, z := 3 : Vec3}).x (1/2) 2
            ({ x := 0, y := 0, z := 0 : Vec3 }).x)
    ∧ (iterSlerpAngle (1/2) 2 1 = 1 * (1 - 1/2) ^ 2)
    ∧ (iterSlerpAngle (1/2) (2 + 1) 1 ≤ iterSlerpAngle (1/2) 2 1)
    ∧ ((0 : ℚ) < 1/2 → ∀ eps : ℚ, 0 < eps → ∃ N : ℕ, ∀ m : ℕ, N ≤ m →
        |(1 : ℚ) - iterLerp 1 (1/2) m 0| < eps) :=
  claim7_smoothing_convergence 1 (1/2) 0 1 { x := 0, y := 0, z := 0 }
    { x := 1, y := 2, z := 3 } 2 (by norm_num) (by norm_num) (by norm_num)

theorem backgroundOps_passthrough (enableBackgroundReplace backgroundImage ctxOk : Bool)
    (segmentation : Option SegmentationResult)
    (h : enableBackgroundReplace = false ∨ segMaskAvailable segmentation = false) :
    backgroundOps enableBackgroundReplace backgroundImage ctxOk segmentation
      = [DrawOp.drawVideo] := by
  cases segmentation with
  | none => rfl
  | some seg =>
      have hcond : (enableBackgroundReplace
          && (decide (seg.confidenceMasks.length ≠ 0) || seg.categoryMask.isSome)) = false := by
        rcases h with h | h
        · rw [h, Bool.false_and]
        · have hmask : (decide (seg.confidenceMasks.length ≠ 0) || seg.categoryMask.isSome)
              = false := h
          rw [hmask, Bool.and_false]
      simp only [backgroundOps]
      rw [hcond]
      rfl

theorem faceLayerOps_no_offscreen (enableFaceSwap faceOverlayImage : Bool)
    (snapshot : Option FaceSnapshot) (faceBox : Option FaceBox) :
    ∀ op ∈ faceLayerOps enableFaceSwap faceOverlayImage snapshot faceBox,
      touchesOffscreen op = false := by
  intro op hop
  rcases faceBox with _ | b <;> rcases snapshot with _ | s <;>
    cases enableFaceSwap <;> cases faceOverlayImage <;>
      simp_all [faceLayerOps, touchesOffscreen]

/-- Claim C8: whenever background replacement is disabled or no segmentation
mask is available, the background layer of the compositor is exactly one
direct draw of the source video frame, the whole trace is the passthrough
trace (save, clear, the optional mirror transform, the direct draw, the face
layer, restore), no operation of the frame touches the offscreen mask or
person-cutout buffers, and with the 2D face overlay also disabled the frame
is nothing but the direct draw inside the mirror-wrapped context. -/
theorem claim8_compositor_passthrough (mirrorCamera enableBackgroundReplace backgroundImage
    enableFaceSwap faceOverlayImage ctxOk : Bool)
    (segmentation : Option SegmentationResult) (snapshot : Option FaceSnapshot)
    (canvasWidth canvasHeight : ℚ)
    (h : enableBackgroundReplace = false ∨ segMaskAvailable segmentation = false) :
    backgroundOps enableBackgroundReplace backgroundImage ctxOk segmentation
        = [DrawOp.drawVideo]
    ∧ drawCompositionOps mirrorCamera enableBackgroundReplace backgroundImage enableFaceSwap
        faceOverlayImage ctxOk segmentation snapshot canvasWidth canvasHeight
      = [DrawOp.save, DrawOp.clearRect]
        ++ (if mirrorCamera then [DrawOp.mirrorTransform] else [])
        ++ [DrawOp.drawVideo]
        ++ faceLayerOps enableFaceSwap faceOverlayImage snapshot
            (faceLayerBox snapshot canvasWidth canvasHeight mirrorCamera)
        ++ [DrawOp.restore]
    ∧ (∀ op ∈ drawCompositionOps mirrorCamera enableBackgroundReplace backgroundImage
          enableFaceSwap faceOverlayImage ctxOk segmentation snapshot
          canvasWidth canvasHeight, touchesOffscreen op = false)
    ∧ (enableFaceSwap = false →
        drawCompositionOps mirrorCamera enableBackgroundReplace backgroundImage enableFaceSwap
          faceOverlayImage ctxOk segmentation snapshot canvasWidth canvasHeight
        = [DrawOp.save, DrawOp.clearRect]
          ++ (if mirrorCamera then [DrawOp.mirrorTransform] else [])
          ++ [DrawOp.drawVideo, DrawOp.restore]) := by
  have hbg := backgroundOps_passthrough enableBackgroundReplace backgroundImage ctxOk
    segmentation h
  have hface := faceLayerOps_no_offscreen enableFaceSwap faceOverlayImage snapshot
    (faceLayerBox snapshot canvasWidth canvasHeight mirrorCamera)
  refine ⟨hbg, ?_, ?_, ?_⟩
  · unfold drawCompositionOps
    rw [hbg]
  · intro op hop
    unfold drawCompositionOps at hop
    rw [hbg] at hop
    rcases List.mem_append.mp hop with hmain | hrest
    · rcases List.mem_append.mp hmain with hmain2 | hface2
      · rcases List.mem_append.mp hmain2 with hmain3 | hvid
        · rcases List.mem_append.mp hmain3 with hhead | hmir
          · rcases (by simpa using hhead : op = DrawOp.save ∨ op = DrawOp.clearRect)
              with h1 | h1 <;> (subst h1; rfl)
          · cases mirrorCamera
            · simp at hmir
            · have h1 : op = DrawOp.mirrorTransform := by simpa using hmir
              subst h1
              rfl
        · have h1 : op = DrawOp.drawVideo := by simpa using hvid
          subst h1
          rfl
      · exact hface op hface2
    · have h1 : op = DrawOp.restore := by simpa using hrest
      subst h1
      rfl
  · intro hfs
    subst hfs
    unfold drawCompositionOps
    rw [hbg]
    have hfl : faceLayerOps false faceOverlayImage snapshot
        (faceLayerBox snapshot canvasWidth canvasHeight mirrorCamera) = [] := by
      rcases faceLayerBox snapshot canvasWidth canvasHeight mirrorCamera with _ | b <;>
        simp [faceLayerOps]
    rw [hfl]
    simp

/-- Concrete instance of claim C8 with replacement disabled. -/
theorem claim8_witness :
    backgroundOps false false true none = [DrawOp.drawVideo]
    ∧ drawCompositionOps true false false true true true none (some sampleSnapshot) 640 480
      = [DrawOp.save, DrawOp.clearRect]
        ++ (if true then [DrawOp.mirrorTransform] else [])
        ++ [DrawOp.drawVideo]
        ++ faceLayerOps true true (some sampleSnapshot)
            (faceLayerBox (some sampleSnapshot) 640 480 true)
        ++ [DrawOp.restore]
    ∧ (∀ op ∈ drawCompositionOps true false false true true true none
          (some sampleSnapshot) 640 480, touchesOffscreen op = false)
    ∧ (true = false →
        drawCompositionOps true false false true true true none (some sampleSnapshot) 640 480
        = [DrawOp.save, DrawOp.clearRect]
          ++ (if true then [DrawOp.mirrorTransform] else [])
          ++ [DrawOp.drawVideo, DrawOp.restore]) :=
  claim8_compositor_passthrough true false false true true true none (some sampleSnapshot)
    640 480 (Or.inl rfl)

theorem lookup_eraseP_ne (k target : String) (h : (k == target) = false)
    (l : List (String × ℚ)) :
    (l.eraseP (fun p => p.1 == target)).lookup k = l.lookup k := by
  induction l with
  | nil => rfl
  | cons a rest ih =>
      obtain ⟨a1, a2⟩ := a
      by_cases ha : (a1 == target) = true
      · have ha1 : a1 = target := eq_of_beq ha
        have hk : (k == a1) = false := by
          rw [ha1]
          exact h
        rw [List.eraseP_cons]
        simp [ha, List.lookup_cons, hk]
      · rw [List.eraseP_cons]
        simp [ha, List.lookup_cons, ih]

theorem lookup_setKey_self (l : List (String × ℚ)) (k : String) (v : ℚ) :
    (setKey l k v).lookup k = some v := by
  show ((k, v) :: l.eraseP (fun p => p.1 == k)).lookup k = some v
  simp

theorem lookup_setKey_ne (l : List (String × ℚ)) (k target : String) (v : ℚ)
    (h : (k == target) = false) :
    (setKey l target v).lookup k = l.lookup k := by
  show ((target, v) :: l.eraseP (fun p => p.1 == target)).lookup k = l.lookup k
  rw [List.lookup_cons, h]
  simp only [Bool.false_eq_true, if_false]
  exact lookup_eraseP_ne k target h l

theorem applyOneShape_lookup_other (morphDict : String → Bool)
    (acc : List (String × ℚ) × List (String × ℚ)) (shape : Blendshape) (k : String)
    (h : (k == shape.name) = false) :
    ((applyOneShape morphDict acc shape).1.lookup k = acc.1.lookup k)
    ∧ ((applyOneShape morphDict acc shape).2.lookup k = acc.2.lookup k) := by
  unfold applyOneShape
  by_cases hd : morphDict shape.name = true
  · simp only [if_pos hd]
    exact ⟨lookup_setKey_ne _ _ _ _ h, lookup_setKey_ne _ _ _ _ h⟩
  · simp [if_neg hd]

theorem applyShapes_fold_lookup_notin (morphDict : String → Bool)
    (shapes : List Blendshape) (k : String)
    (hk : ∀ sh ∈ shapes, (k == sh.name) = false)
    (acc : List (String × ℚ) × List (String × ℚ)) :
    ((shapes.foldl (applyOneShape morphDict) acc).1.lookup k = acc.1.lookup k)
    ∧ ((shapes.foldl (applyOneShape morphDict) acc).2.lookup k = acc.2.lookup k) := by
  induction shapes generalizing acc with
  | nil => exact ⟨rfl, rfl⟩
  | cons sh rest ih =>
      have hsh := hk sh (List.mem_cons_self sh rest)
      have hrest : ∀ s ∈ rest, (k == s.name) = false :=
        fun s hs => hk s (List.mem_cons_of_mem sh hs)
      have hstep := applyOneShape_lookup_other morphDict acc sh k hsh
      obtain ⟨h1, h2⟩ := ih hrest (applyOneShape morphDict acc sh)
      exact ⟨h1.trans hstep.1, h2.trans hstep.2⟩

theorem applyShapes_lookup (morphDict : String → Bool) (shapes : List Blendshape)
    (st inf : List (String × ℚ)) (sh : Blendshape)
    (hnd : (shapes.map Blendshape.name).Nodup) (hmem : sh ∈ shapes)
    (hd : morphDict sh.name = true) :
    (applyShapes morphDict shapes st inf).1.lookup sh.name
      = some (mathLerp ((st.lookup sh.name).getD 0) (blendshapeTarget sh)
          (blendshapeFactor sh))
    ∧ (applyShapes morphDict shapes st inf).2.lookup sh.name
      = some (min 1 (max 0 (mathLerp ((st.lookup sh.name).getD 0) (blendshapeTarget sh)
          (blendshapeFactor sh)))) := by
  induction shapes generalizing st inf with
  | nil => cases hmem
  | cons a rest ih =>
      have hnd2 : a.name ∉ rest.map Blendshape.name ∧ (rest.map Blendshape.name).Nodup := by
        rw [List.map_cons, List.nodup_cons] at hnd
        exact hnd
      rcases List.mem_cons.mp hmem with heq | hmem2
      · subst heq
        have hnotin : ∀ s ∈ rest, (sh.name == s.name) = false := by
          intro s hs
          refine beq_eq_false_iff_ne.mpr fun he => hnd2.1 ?_
          rw [he]
          exact List.mem_map_of_mem Blendshape.name hs
        have hstep1 : (applyOneShape morphDict (st, inf) sh).1
            = setKey st sh.name (mathLerp ((st.lookup sh.name).getD 0)
                (blendshapeTarget sh) (blendshapeFactor sh)) := by
          simp [applyOneShape, hd]
        have hstep2 : (applyOneShape morphDict (st, inf) sh).2
            = setKey inf sh.name (min 1 (max 0 (mathLerp ((st.lookup sh.name).getD 0)
                (blendshapeTarget sh) (blendshapeFactor sh)))) := by
          simp [applyOneShape, hd]
        obtain ⟨hp1, hp2⟩ := applyShapes_fold_lookup_notin morphDict rest sh.name hnotin
          (applyOneShape morphDict (st, inf) sh)
        constructor
        · show (rest.foldl (applyOneShape morphDict)
              (applyOneShape morphDict (st, inf) sh)).1.lookup sh.name = _
          rw [hp1, hstep1, lookup_setKey_self]
        · show (rest.foldl (applyOneShape morphDict)
              (applyOneShape morphDict (st, inf) sh)).2.lookup sh.name = _
          rw [hp2, hstep2, lookup_setKey_self]
      · have hane : (sh.name == a.name) = false := by
          refine beq_eq_false_iff_ne.mpr fun he => hnd2.1 ?_
          rw [← he]
          exact List.mem_map_of_mem Blendshape.name hmem2
        have hacc := applyOneShape_lookup_other morphDict (st, inf) a sh.name hane
        have hih := ih ((applyOneShape morphDict (st, inf) a).1)
          ((applyOneShape morphDict (st, inf) a).2) hnd2.2 hmem2
        rw [hacc.1] at hih
        constructor
        · show (rest.foldl (applyOneShape morphDict)
              (applyOneShape morphDict (st, inf) a)).1.lookup sh.name = _
          exact hih.1
        · show (rest.foldl (applyOneShape morphDict)
              (applyOneShape morphDict (st, inf) a)).2.lookup sh.name = _
          exact hih.2

/-- Claim C9: on every frame, for each blendshape name known to the morph
dictionary, the influence applied to the mesh is the clamp to [0,1] of the
lerp of the previous smoothed state (0 when absent) toward the frame target
with factor 1/4, except that gaze/eye-direction names (prefix eyeLook) use
factor 3/20 after scaling the target score by 2/5; the stored smoothed state
keeps the unclamped value, and the blendshape stage of the avatar frame is
exactly this loop. -/
theorem claim9_blendshape_smoothing (morphDict : String → Bool)
    (shapes : List Blendshape) (st inf : List (String × ℚ)) (sh : Blendshape)
    (ast : AvatarState)
    (hnd : (shapes.map Blendshape.name).Nodup) (hmem : sh ∈ shapes)
    (hd : morphDict sh.name = true) (hne : 0 < shapes.length) :
    (applyShapes morphDict shapes st inf).2.lookup sh.name
      = some (min 1 (max 0 (mathLerp ((st.lookup sh.name).getD 0) (blendshapeTarget sh)
          (blendshapeFactor sh))))
    ∧ (applyShapes morphDict shapes st inf).1.lookup sh.name
      = some (mathLerp ((st.lookup sh.name).getD 0) (blendshapeTarget sh)
          (blendshapeFactor sh))
    ∧ blendshapeTarget sh
      = (if sh.name.startsWith eyeLookNameStart then sh.score * (2/5) else sh.score)
    ∧ blendshapeFactor sh
      = (if sh.name.startsWith eyeLookNameStart then (3/20 : ℚ) else (1/4 : ℚ))
    ∧ (avatarBlendStage true morphDict (some shapes) ast).morphInfluences
      = (applyShapes morphDict shapes ast.blendshapeState ast.morphInfluences).2 := by
  have hmain := applyShapes_lookup morphDict shapes st inf sh hnd hmem hd
  refine ⟨hmain.2, hmain.1, rfl, rfl, ?_⟩
  unfold avatarBlendStage
  simp [hne]

/-- Concrete instance of claim C9 on a gaze blendshape. -/
theorem claim9_witness :
    (applyShapes (fun _ => true)
        [{ name := jawOpenName, score := 1/2 }, { name := eyeLookUpName, score := 1 }]
        [] []).2.lookup ({ name := eyeLookUpName, score := 1 : Blendshape }).name
      = some (min 1 (max 0 (mathLerp
          (((([] : List (String × ℚ))).lookup
              ({ name := eyeLookUpName, score := 1 : Blendshape }).name).getD 0)
          (blendshapeTarget { name := eyeLookUpName, score := 1 })
          (blendshapeFactor { name := eyeLookUpName, score := 1 }))))
    ∧ (applyShapes (fun _ => true)
        [{ name := jawOpenName, score := 1/2 }, { name := eyeLookUpName, score := 1 }]
        [] []).1.lookup ({ name := eyeLookUpName, score := 1 : Blendshape }).name
      = some (mathLerp
          (((([] : List (String × ℚ))).lookup
              ({ name := eyeLookUpName, score := 1 : Blendshape }).name).getD 0)
          (blendshapeTarget { name := eyeLookUpName, score := 1 })
          (blendshapeFactor { name := eyeLookUpName, score := 1 }))
    ∧ blendshapeTarget { name := eyeLookUpName, score := 1 }
      = (if ({ name := eyeLookUpName, score := 1 : Blendshape }).name.startsWith
            eyeLookNameStart
          then ({ name := eyeLookUpName, score := 1 : Blendshape }).score * (2/5)
          else ({ name := eyeLookUpName, score := 1 : Blendshape }).score)
    ∧ blendshapeFactor { name := eyeLookUpName, score := 1 }
      = (if ({ name := eyeLookUpName, score := 1 : Blendshape }).name.startsWith
            eyeLookNameStart
          then (3/20 : ℚ) else (1/4 : ℚ))
    ∧ (avatarBlendStage true (fun _ => true)
        (some [{ name := jawOpenName, score := 1/2 },
               { name := eyeLookUpName, score := 1 }]) sampleAvatarState).morphInfluences
      = (applyShapes (fun _ => true)
          [{ name := jawOpenName, score := 1/2 }, { name := eyeLookUpName, score := 1 }]
          sampleAvatarState.blendshapeState sampleAvatarState.morphInfluences).2 :=
  claim9_blendshape_smoothing (fun _ => true)
    [{ name := jawOpenName, score := 1/2 }, { name := eyeLookUpName, score := 1 }]
    [] [] { name := eyeLookUpName, score := 1 } sampleAvatarState
    (by decide) (by decide) rfl (by decide)
